import Mathlib

/-!
Verification of `sitemap_to_csv.py` and `streamlit_app.py`: a shallow
embedding of the sitemap traversal, URL classification, CSV export and the
two entry points, followed by theorems settling the specification claims.

Modelling conventions, checked against CPython 3.11 semantics:
* `fetch_xml` plus `ET.fromstring` are modelled as a finite map from URL to
  an already-parsed XML document (`SitemapGraph`); a URL outside the map
  raises (network failure, bad URL such as `".//"`, or malformed XML — the
  code treats all of these the same way: the exception propagates).
* `element.findtext("sm:loc", ".//", NS)` returns the text of the first
  namespaced `loc` child, `""` when the child exists with no text, and the
  second positional argument — the *default* `".//"` — when the child is
  missing.  The per-entry value is therefore an `Option String`.
* In the `urlset` branch the source calls `url_entry.findtext("sm:loc")`
  without the namespace map.  The C accelerator then scans direct children
  for the literal tag `"sm:loc"`.  A successfully parsed document can never
  contain such a tag (an undeclared prefix is a parse error; a declared one
  is expanded to `{uri}loc`), so the lookup always returns `None` and
  `if not loc: continue` skips every entry; the `emit.add` /
  recursive-descent code below it is unreachable.
* Python `set` is modelled as `Finset String`; exceptions as an error value
  carried next to the (mutated-in-place) state, matching the fact that the
  Python sets keep their contents when an exception unwinds.
* Character-level string operations (`lower`, `strip`, `rstrip`) are
  modelled on the ASCII fragment Python and Lean share; the suffix `.xml`
  and the separator `/` are ASCII, and no non-ASCII character lowercases
  onto `.`, `x`, `m`, `l` or `/`.
-/

/-- Python `str.strip()` whitespace, restricted to ASCII. -/
def pyWhitespace (c : Char) : Bool :=
  c = ' ' || c = '\t' || c = '\n' || c = '\r' || c = '\x0b' || c = '\x0c'

/-- Python `s.strip()`: drop leading and trailing whitespace. -/
def pyStrip (s : String) : String :=
  ⟨((s.data.dropWhile pyWhitespace).reverse.dropWhile pyWhitespace).reverse⟩

/-- Python `s.rstrip("/")`: drop every trailing `/`. -/
def rstripSlash (s : String) : String :=
  ⟨(s.data.reverse.dropWhile (fun c => c = '/')).reverse⟩

/-- Python `s.lower()`, restricted to ASCII (`Char.toLower` maps exactly
the ASCII range `A`-`Z`; Python agrees there, and no non-ASCII character
lowercases onto a character of `.xml` or `/`). -/
def pyLower (s : String) : String :=
  ⟨s.data.map Char.toLower⟩

/-- `is_xml_link(url)`: `url.lower().rstrip("/").endswith(".xml")`
(sitemap_to_csv.py line 43). -/
def is_xml_link (url : String) : Bool :=
  ".xml".data.isSuffixOf (rstripSlash (pyLower url)).data

/-- The classification exactly as the spec words it: «classified as an
XML-sitemap reference if, case-insensitively and ignoring a trailing path
separator, it ends in the literal suffix `.xml`» — the trailing
separator(s) are removed first, then the comparison is done
case-insensitively.  Compared with `is_xml_link` (which lowercases before
stripping) in C4. -/
def isXmlRef_spec (url : String) : Bool :=
  ".xml".data.isSuffixOf (pyLower (rstripSlash url)).data

/-- Everything after the first `}` of the list. -/
def dropThroughBrace : List Char → List Char
  | [] => []
  | c :: rest => if c = '}' then rest else dropThroughBrace rest

/-- `root.tag.split("}", 1)[-1]`: when the tag contains a `}`, the part
after the first one (later braces kept, since `maxsplit=1`); otherwise the
whole tag. -/
def localTag (t : String) : String :=
  if t.data.any (fun c => c = '}') then ⟨dropThroughBrace t.data⟩ else t

/-- A parsed sitemap document.
`rootTag` is the full element tag (namespace included, e.g.
`{http://www.sitemaps.org/schemas/sitemap/0.9}sitemapindex`).
`sitemapLocs` carries, for each `sm:sitemap` child found by
`root.findall("sm:sitemap", NS)`, the result of the namespaced `loc`
lookup: `none` when the child has no `loc` element, `some s` for the text.
`urlLocs` does the same for the `sm:url` children of a `urlset`. -/
structure XmlDoc where
  rootTag : String
  sitemapLocs : List (Option String)
  urlLocs : List (Option String)

/-- The fetch-and-parse environment: `dom` is the finite set of URLs for
which `fetch_xml` followed by `ET.fromstring` succeeds, `doc` gives the
parsed document.  A URL outside `dom` makes `fetch_xml` raise. -/
structure SitemapGraph where
  dom : Finset String
  doc : String → XmlDoc

/-- Exceptions that escape `parse_sitemap`. -/
inductive PyErr where
  /-- any exception raised while fetching/parsing `url` (urllib error,
  `ValueError: unknown url type` for strings such as `".//"`, XML parse
  error). -/
  | fetchError (url : String)
  /-- `raise ValueError(f"Unsupported sitemap root tag: {root.tag}")`
  (line 72); carries `root.tag`. -/
  | valueError (tag : String)
deriving DecidableEq

/-- The mutable state of a traversal: the two Python sets `seen_xml` and
`emit`, plus `fetched`, a ghost trace recording each call of `fetch_xml`
in order (pure instrumentation; no source control flow depends on it). -/
structure WalkState where
  seen : Finset String
  emit : Finset String
  fetched : List String
deriving DecidableEq

/-- The `urlset` branch (lines 61-70).  For every entry the namespace-less
`findtext("sm:loc")` returns `None` (see the header comment), so
`if not loc: continue` fires and the state is unchanged. -/
def urlsetPass : List (Option String) → WalkState → WalkState
  | [], st => st
  | _entry :: rest, st => urlsetPass rest st

/-- The `sitemapindex` loop (lines 57-60), parametrised by the recursive
call `f`.  `loc = sitemap.findtext("sm:loc", ".//", NS)` yields the
default `".//"` for an entry without a `loc` child; `if loc:` only skips
the empty string; otherwise recurse on `loc.strip()`.  A raised exception
(`some e` next to the state) stops the loop and propagates. -/
def parseLocsWith (f : String → WalkState → Option (WalkState × Option PyErr)) :
    List (Option String) → WalkState → Option (WalkState × Option PyErr)
  | [], st => some (st, none)
  | locOpt :: rest, st =>
    let loc := locOpt.getD ".//"
    if loc = "" then parseLocsWith f rest st
    else
      match f (pyStrip loc) st with
      | none => none
      | some (st1, some e) => some (st1, some e)
      | some (st1, none) => parseLocsWith f rest st1

/-- One unfolding of `parse_sitemap` (lines 46-72), with `rec` standing
for the recursive call.  Returns `some (state, none)` on normal return,
`some (state, some e)` when exception `e` propagates (the sets keep their
mutations), `none` when `rec` gave up (fuel exhaustion, see below). -/
def parseStep (G : SitemapGraph)
    (rec : String → WalkState → Option (WalkState × Option PyErr))
    (url : String) (st : WalkState) : Option (WalkState × Option PyErr) :=
  if url ∈ st.seen then some (st, none)
  else
    let st1 : WalkState := ⟨insert url st.seen, st.emit, st.fetched ++ [url]⟩
    if url ∈ G.dom then
      let d := G.doc url
      let tag := localTag d.rootTag
      if tag = "sitemapindex" then parseLocsWith rec d.sitemapLocs st1
      else if tag = "urlset" then some (urlsetPass d.urlLocs st1, none)
      else some (st1, some (PyErr.valueError d.rootTag))
    else some (st1, some (PyErr.fetchError url))

/-- `parse_sitemap(url, seen_xml, emit)`: fuel-indexed unrolling of the
recursion.  The fuel is an artifact of the embedding; Lean requires a
termination argument and `parse_total` below shows that
`G.dom.card + 1` fuel never runs out, so no behaviour is truncated. -/
def parse_sitemap (G : SitemapGraph) :
    Nat → String → WalkState → Option (WalkState × Option PyErr)
  | 0, _, _ => none
  | fuel + 1, url, st =>
    parseStep G (fun u s => parse_sitemap G fuel u s) url st

/-- Result of `collect_urls`: either the collected set or the exception
that propagated out. -/
inductive RunResult where
  | ok (urls : Finset String)
  | err (e : PyErr)
deriving DecidableEq

/-- `collect_urls(root_sitemap)` (lines 75-80): run the traversal from
empty sets and return the `emit` set, or the propagated exception. -/
def collect_urls (G : SitemapGraph) (root_sitemap : String) : Option RunResult :=
  match parse_sitemap G (G.dom.card + 1) root_sitemap ⟨∅, ∅, []⟩ with
  | none => none
  | some (_, some e) => some (RunResult.err e)
  | some (st, none) => some (RunResult.ok st.emit)

/-- A character forcing csv quoting under the default `QUOTE_MINIMAL`
dialect: the delimiter `,`, the quote char, or a line-break character of
the default line terminator. -/
def isCsvSpecial (c : Char) : Bool :=
  c = ',' || c = '"' || c = '\r' || c = '\n'

/-- csv escaping: each quote char is doubled. -/
def escapeQuotes (f : String) : String :=
  ⟨f.data.foldr (fun c acc => if c = '"' then '"' :: '"' :: acc else c :: acc) []⟩

/-- One field as `csv.writer` emits it: quoted (with doubled quote chars)
when it contains a special character; additionally a lone empty field of a
one-field row is quoted (`writerow([""])` emits `""`, checked against
CPython 3.11); otherwise verbatim. -/
def quoteField (f : String) : String :=
  if f.data.any isCsvSpecial then "\"" ++ escapeQuotes f ++ "\""
  else if f = "" then "\"" ++ "\""
  else f

/-- One single-field row: the field followed by the default csv line
terminator `"\r\n"` (the file is opened with `newline=""`, the Streamlit
variant writes to a `StringIO`, so the terminator reaches the output
unchanged). -/
def csvRow (f : String) : String := quoteField f ++ "\r\n"

/-- The byte content produced by `write_csv` (sitemap_to_csv.py lines
83-89) and `_build_csv` (streamlit_app.py lines 20-26): a `url` header
row, then one row per element of the set in the order of Python
`sorted`, i.e. ascending lexicographic code-point order. -/
def build_csv (urls : Finset String) : String :=
  csvRow "url" ++ String.join ((urls.sort (· ≤ ·)).map csvRow)

/-- `build_csv` applied to a set built by inserting the elements of a
list in order: exposes insertion order for the determinism claim. -/
def build_csv_list (urls : List String) : String :=
  build_csv urls.toFinset

/-- `str(err)` for the modelled exceptions.  The `valueError` text is the
exact f-string of line 72; the fetch failure text comes from `urllib` /
the XML parser (environment-supplied), modelled by a fixed shape. -/
def errMessage : PyErr → String
  | PyErr.fetchError u => "fetch of " ++ u ++ " failed"
  | PyErr.valueError tag => "Unsupported sitemap root tag: " ++ tag

/-- Observable outcome of one CLI invocation of `main()` (lines 109-119):
normal exit 0 with the summary line, `sys.exit(1)` after the caught
exception with the stderr line, or an unhandled exception escaping
`main` (traceback, nonzero exit). -/
inductive CliOutcome where
  | ok (stdoutLine : String)
  | sitemapFailure (stderrLine : String)
  | crashed (what : String)
deriving DecidableEq

/-- Process exit code of each outcome (an unhandled Python exception also
exits nonzero, but via traceback, not via the handler). -/
def exitCode : CliOutcome → Nat
  | CliOutcome.ok _ => 0
  | CliOutcome.sitemapFailure _ => 1
  | CliOutcome.crashed _ => 1

/-- Whether an outcome was handled by the program itself (a normal exit
or the caught-and-reported path) rather than an unhandled traceback. -/
def handledGracefully : CliOutcome → Bool
  | CliOutcome.crashed _ => false
  | _ => true

/-- `main()` (lines 109-119).  Only `collect_urls` sits inside the
`try`; `write_csv` runs after it, outside any handler, so a failure to
open or write `args.output` (modelled by `writeOk = false`) escapes as an
unhandled exception.  The returned `Bool` records whether the output file
was written.  A `RecursionError` (the `none` arm, provably unreachable by
`collect_urls_total`) would also be caught by `except Exception`. -/
def main_run (G : SitemapGraph) (sitemap output : String) (writeOk : Bool) :
    CliOutcome × Bool :=
  match collect_urls G sitemap with
  | none =>
    (CliOutcome.sitemapFailure
      ("Failed to parse sitemap: " ++ "maximum recursion depth exceeded"), false)
  | some (RunResult.err e) =>
    (CliOutcome.sitemapFailure ("Failed to parse sitemap: " ++ errMessage e), false)
  | some (RunResult.ok collected) =>
    if writeOk then
      (CliOutcome.ok
        ("Wrote " ++ toString collected.card ++ " unique URLs to " ++ output), true)
    else (CliOutcome.crashed "OSError from write_csv", false)

/-- The parameter names of `def collect_urls(root_sitemap, cert_file=None)`
(sitemap_to_csv.py line 75). -/
def collect_urls_params : List String := ["root_sitemap", "cert_file"]

/-- The keyword arguments of the call
`collect_urls(sitemap_url, cert_file=cert_file, strip_domain=strip_domain)`
at streamlit_app.py lines 48-52 (the first argument is positional). -/
def streamlit_call_kwargs : List String := ["cert_file", "strip_domain"]

/-- Python accepts a call only when every supplied keyword names a
parameter of the callee (no `**kwargs` is declared); otherwise the call
raises `TypeError` before the function body runs. -/
def pyCallKwargsOk (params provided : List String) : Bool :=
  provided.all (fun k => params.contains k)

/-- What one submission of the Streamlit form renders: an `st.error` box,
or the success page with the download payload and the discovered count. -/
inductive FormOutcome where
  | errorBox (msg : String)
  | page (csvText : String) (count : Nat)
deriving DecidableEq

/-- The submission handler (streamlit_app.py lines 40-62).  The URL is
stripped; an empty URL is rejected; then `collect_urls` is *called* with
the keyword arguments of `streamlit_call_kwargs` — when one of them is
not a parameter of `collect_urls` the call itself raises `TypeError`,
which the `except Exception` arm turns into the inline error box.  On a
successful call the success page is rendered (no post-processing of the
collected set exists anywhere in the sources; `strip_domain` is never
read by `collect_urls`). -/
def on_submit (G : SitemapGraph) (sitemap_url : String) (strip_domain : Bool) :
    FormOutcome :=
  let u := pyStrip sitemap_url
  if u = "" then FormOutcome.errorBox "Please provide a sitemap URL."
  else if pyCallKwargsOk collect_urls_params streamlit_call_kwargs then
    match collect_urls G u with
    | none => FormOutcome.errorBox
        ("Failed to collect URLs: " ++ "maximum recursion depth exceeded")
    | some (RunResult.err e) =>
        FormOutcome.errorBox ("Failed to collect URLs: " ++ errMessage e)
    | some (RunResult.ok urls) => FormOutcome.page (build_csv urls) urls.card
  else
    FormOutcome.errorBox
      ("Failed to collect URLs: collect_urls() got an unexpected keyword argument "
        ++ "strip_domain")

/-- Invariant of the ghost trace: no URL was fetched twice, and every
fetched URL is in `seen_xml` (it is inserted right before the fetch). -/
def GoodTrace (st : WalkState) : Prop :=
  st.fetched.Nodup ∧ ∀ u ∈ st.fetched, u ∈ st.seen

/-- On runs without a propagated exception every fetch succeeded, i.e.
every fetched URL lies in the graph domain. -/
def DomTrace (G : SitemapGraph) (st : WalkState) : Prop :=
  ∀ u ∈ st.fetched, u ∈ G.dom

/-- The sitemap-protocol namespace brace prefix of parsed tags. -/
def smNS : String := "{http://www.sitemaps.org/schemas/sitemap/0.9}"

/-- Root URL used by the concrete scenarios. -/
def exRoot : String := "https://a.com/sitemap.xml"

/-- Scenario graph of C1: the root is a `urlset` with entries
`https://a.com/1` and `https://a.com/2.xml`, and `https://a.com/2.xml`
is a `urlset` with entry `https://a.com/3`. -/
def exGraphC1 : SitemapGraph :=
  ⟨{exRoot, "https://a.com/2.xml"},
   fun u =>
     if u = exRoot then
       ⟨smNS ++ "urlset", [], [some "https://a.com/1", some "https://a.com/2.xml"]⟩
     else if u = "https://a.com/2.xml" then
       ⟨smNS ++ "urlset", [], [some "https://a.com/3"]⟩
     else ⟨"", [], []⟩⟩

/-- Scenario graph of C2: the root `sitemapindex` references itself. -/
def selfLoopGraph : SitemapGraph :=
  ⟨{exRoot}, fun _ => ⟨smNS ++ "sitemapindex", [some exRoot], []⟩⟩

/-- Scenario graph of C3: the root `sitemapindex` has one `sitemap`
child without any `loc` element. -/
def missingLocGraph : SitemapGraph :=
  ⟨{exRoot}, fun _ => ⟨smNS ++ "sitemapindex", [none], []⟩⟩

/-- A root `sitemapindex` with no entries: the traversal succeeds with an
empty collected set. -/
def emptyIndexGraph : SitemapGraph :=
  ⟨{exRoot}, fun _ => ⟨smNS ++ "sitemapindex", [], []⟩⟩

/-- A graph where every fetch fails (e.g. the server answers 404). -/
def noFetchGraph : SitemapGraph := ⟨∅, fun _ => ⟨"", [], []⟩⟩

/-- A root whose document has an unsupported root tag. -/
def rssGraph : SitemapGraph :=
  ⟨{exRoot}, fun _ => ⟨smNS ++ "rss", [], []⟩⟩

theorem urlsetPass_eq (l : List (Option String)) (st : WalkState) :
    urlsetPass l st = st := by
  induction l with
  | nil => rfl
  | cons _ rest ih => simpa [urlsetPass] using ih

theorem parseLocsWith_emit
    (f : String → WalkState → Option (WalkState × Option PyErr))
    (hf : ∀ u st st1 e, f u st = some (st1, e) → st1.emit = st.emit) :
    ∀ (locs : List (Option String)) (st st1 : WalkState) (e : Option PyErr),
      parseLocsWith f locs st = some (st1, e) → st1.emit = st.emit := by
  intro locs
  induction locs with
  | nil =>
    intro st st1 e h
    simp only [parseLocsWith, Option.some.injEq, Prod.mk.injEq] at h
    rw [← h.1]
  | cons locOpt rest ih =>
    intro st st1 e h
    simp only [parseLocsWith] at h
    by_cases hloc : locOpt.getD ".//" = ""
    · rw [if_pos hloc] at h
      exact ih st st1 e h
    · rw [if_neg hloc] at h
      cases hcall : f (pyStrip (locOpt.getD ".//")) st with
      | none => rw [hcall] at h; cases h
      | some p =>
        obtain ⟨st2, e2⟩ := p
        rw [hcall] at h
        cases e2 with
        | some e3 =>
          simp only [Option.some.injEq, Prod.mk.injEq] at h
          rw [← h.1]
          exact hf _ _ _ _ hcall
        | none =>
          exact (ih st2 st1 e h).trans (hf _ _ _ _ hcall)

theorem parseLocsWith_seen
    (f : String → WalkState → Option (WalkState × Option PyErr))
    (hf : ∀ u st st1 e, f u st = some (st1, e) → st.seen ⊆ st1.seen) :
    ∀ (locs : List (Option String)) (st st1 : WalkState) (e : Option PyErr),
      parseLocsWith f locs st = some (st1, e) → st.seen ⊆ st1.seen := by
  intro locs
  induction locs with
  | nil =>
    intro st st1 e h
    simp only [parseLocsWith, Option.some.injEq, Prod.mk.injEq] at h
    rw [h.1]
  | cons locOpt rest ih =>
    intro st st1 e h
    simp only [parseLocsWith] at h
    by_cases hloc : locOpt.getD ".//" = ""
    · rw [if_pos hloc] at h
      exact ih st st1 e h
    · rw [if_neg hloc] at h
      cases hcall : f (pyStrip (locOpt.getD ".//")) st with
      | none => rw [hcall] at h; cases h
      | some p =>
        obtain ⟨st2, e2⟩ := p
        rw [hcall] at h
        cases e2 with
        | some e3 =>
          simp only [Option.some.injEq, Prod.mk.injEq] at h
          rw [← h.1]
          exact hf _ _ _ _ hcall
        | none =>
          exact (hf _ _ _ _ hcall).trans (ih st2 st1 e h)

theorem parseStep_emit (G : SitemapGraph)
    (rec : String → WalkState → Option (WalkState × Option PyErr))
    (hrec : ∀ u st st1 e, rec u st = some (st1, e) → st1.emit = st.emit) :
    ∀ (url : String) (st st1 : WalkState) (e : Option PyErr),
      parseStep G rec url st = some (st1, e) → st1.emit = st.emit := by
  intro url st st1 e h
  simp only [parseStep] at h
  by_cases h1 : url ∈ st.seen
  · rw [if_pos h1] at h
    simp only [Option.some.injEq, Prod.mk.injEq] at h
    rw [← h.1]
  · rw [if_neg h1] at h
    by_cases h2 : url ∈ G.dom
    · rw [if_pos h2] at h
      by_cases h3 : localTag (G.doc url).rootTag = "sitemapindex"
      · rw [if_pos h3] at h
        have hh := parseLocsWith_emit rec hrec _ _ _ _ h
        exact hh
      · rw [if_neg h3] at h
        by_cases h4 : localTag (G.doc url).rootTag = "urlset"
        · rw [if_pos h4] at h
          simp only [Option.some.injEq, Prod.mk.injEq] at h
          rw [← h.1, urlsetPass_eq]
        · rw [if_neg h4] at h
          simp only [Option.some.injEq, Prod.mk.injEq] at h
          rw [← h.1]
    · rw [if_neg h2] at h
      simp only [Option.some.injEq, Prod.mk.injEq] at h
      rw [← h.1]

theorem parseStep_seen (G : SitemapGraph)
    (rec : String → WalkState → Option (WalkState × Option PyErr))
    (hrec : ∀ u st st1 e, rec u st = some (st1, e) → st.seen ⊆ st1.seen) :
    ∀ (url : String) (st st1 : WalkState) (e : Option PyErr),
      parseStep G rec url st = some (st1, e) → st.seen ⊆ st1.seen := by
  intro url st st1 e h
  have hsub : st.seen ⊆ insert url st.seen := Finset.subset_insert url st.seen
  simp only [parseStep] at h
  by_cases h1 : url ∈ st.seen
  · rw [if_pos h1] at h
    simp only [Option.some.injEq, Prod.mk.injEq] at h
    rw [h.1]
  · rw [if_neg h1] at h
    by_cases h2 : url ∈ G.dom
    · rw [if_pos h2] at h
      by_cases h3 : localTag (G.doc url).rootTag = "sitemapindex"
      · rw [if_pos h3] at h
        have hh := parseLocsWith_seen rec hrec _ _ _ _ h
        exact hsub.trans hh
      · rw [if_neg h3] at h
        by_cases h4 : localTag (G.doc url).rootTag = "urlset"
        · rw [if_pos h4] at h
          simp only [Option.some.injEq, Prod.mk.injEq] at h
          rw [← h.1, urlsetPass_eq]
          exact hsub
        · rw [if_neg h4] at h
          simp only [Option.some.injEq, Prod.mk.injEq] at h
          rw [← h.1]
          exact hsub
    · rw [if_neg h2] at h
      simp only [Option.some.injEq, Prod.mk.injEq] at h
      rw [← h.1]
      exact hsub

theorem parse_emit (G : SitemapGraph) :
    ∀ (fuel : Nat) (url : String) (st st1 : WalkState) (e : Option PyErr),
      parse_sitemap G fuel url st = some (st1, e) → st1.emit = st.emit := by
  intro fuel
  induction fuel with
  | zero => intro url st st1 e h; cases h
  | succ n ih =>
    intro url st st1 e h
    simp only [parse_sitemap] at h
    exact parseStep_emit G _ (fun u s s1 e2 hc => ih u s s1 e2 hc) url st st1 e h

theorem parse_seen (G : SitemapGraph) :
    ∀ (fuel : Nat) (url : String) (st st1 : WalkState) (e : Option PyErr),
      parse_sitemap G fuel url st = some (st1, e) → st.seen ⊆ st1.seen := by
  intro fuel
  induction fuel with
  | zero => intro url st st1 e h; cases h
  | succ n ih =>
    intro url st st1 e h
    simp only [parse_sitemap] at h
    exact parseStep_seen G _ (fun u s s1 e2 hc => ih u s s1 e2 hc) url st st1 e h

theorem parseLocsWith_good
    (f : String → WalkState → Option (WalkState × Option PyErr))
    (hf : ∀ u st st1 e, f u st = some (st1, e) → GoodTrace st → GoodTrace st1) :
    ∀ (locs : List (Option String)) (st st1 : WalkState) (e : Option PyErr),
      parseLocsWith f locs st = some (st1, e) → GoodTrace st → GoodTrace st1 := by
  intro locs
  induction locs with
  | nil =>
    intro st st1 e h hg
    simp only [parseLocsWith, Option.some.injEq, Prod.mk.injEq] at h
    rw [← h.1]; exact hg
  | cons locOpt rest ih =>
    intro st st1 e h hg
    simp only [parseLocsWith] at h
    by_cases hloc : locOpt.getD ".//" = ""
    · rw [if_pos hloc] at h
      exact ih st st1 e h hg
    · rw [if_neg hloc] at h
      cases hcall : f (pyStrip (locOpt.getD ".//")) st with
      | none => rw [hcall] at h; cases h
      | some p =>
        obtain ⟨st2, e2⟩ := p
        rw [hcall] at h
        cases e2 with
        | some e3 =>
          simp only [Option.some.injEq, Prod.mk.injEq] at h
          rw [← h.1]
          exact hf _ _ _ _ hcall hg
        | none =>
          exact ih st2 st1 e h (hf _ _ _ _ hcall hg)

theorem goodTrace_insert (url : String) (st : WalkState)
    (hg : GoodTrace st) (hnew : url ∉ st.seen) :
    GoodTrace ⟨insert url st.seen, st.emit, st.fetched ++ [url]⟩ := by
  obtain ⟨hnd, hmem⟩ := hg
  constructor
  · have hnotin : url ∉ st.fetched := fun hin => hnew (hmem url hin)
    simp [List.nodup_append, hnd, hnotin]
  · intro u hu
    simp only [List.mem_append, List.mem_singleton] at hu
    rcases hu with hu | hu
    · exact Finset.mem_insert_of_mem (hmem u hu)
    · rw [hu]; exact Finset.mem_insert_self url st.seen

theorem parseStep_good (G : SitemapGraph)
    (rec : String → WalkState → Option (WalkState × Option PyErr))
    (hrec : ∀ u st st1 e, rec u st = some (st1, e) → GoodTrace st → GoodTrace st1) :
    ∀ (url : String) (st st1 : WalkState) (e : Option PyErr),
      parseStep G rec url st = some (st1, e) → GoodTrace st → GoodTrace st1 := by
  intro url st st1 e h hg
  simp only [parseStep] at h
  by_cases h1 : url ∈ st.seen
  · rw [if_pos h1] at h
    simp only [Option.some.injEq, Prod.mk.injEq] at h
    rw [← h.1]; exact hg
  · rw [if_neg h1] at h
    have hg1 := goodTrace_insert url st hg h1
    by_cases h2 : url ∈ G.dom
    · rw [if_pos h2] at h
      by_cases h3 : localTag (G.doc url).rootTag = "sitemapindex"
      · rw [if_pos h3] at h
        exact parseLocsWith_good rec hrec _ _ _ _ h hg1
      · rw [if_neg h3] at h
        by_cases h4 : localTag (G.doc url).rootTag = "urlset"
        · rw [if_pos h4] at h
          simp only [Option.some.injEq, Prod.mk.injEq] at h
          rw [← h.1, urlsetPass_eq]
          exact hg1
        · rw [if_neg h4] at h
          simp only [Option.some.injEq, Prod.mk.injEq] at h
          rw [← h.1]
          exact hg1
    · rw [if_neg h2] at h
      simp only [Option.some.injEq, Prod.mk.injEq] at h
      rw [← h.1]
      exact hg1

theorem parse_good (G : SitemapGraph) :
    ∀ (fuel : Nat) (url : String) (st st1 : WalkState) (e : Option PyErr),
      parse_sitemap G fuel url st = some (st1, e) → GoodTrace st → GoodTrace st1 := by
  intro fuel
  induction fuel with
  | zero => intro url st st1 e h; cases h
  | succ n ih =>
    intro url st st1 e h
    simp only [parse_sitemap] at h
    exact parseStep_good G _ (fun u s s1 e2 hc => ih u s s1 e2 hc) url st st1 e h

theorem parseLocsWith_dom (G : SitemapGraph)
    (f : String → WalkState → Option (WalkState × Option PyErr))
    (hf : ∀ u st st1, f u st = some (st1, none) → DomTrace G st → DomTrace G st1) :
    ∀ (locs : List (Option String)) (st st1 : WalkState),
      parseLocsWith f locs st = some (st1, none) → DomTrace G st → DomTrace G st1 := by
  intro locs
  induction locs with
  | nil =>
    intro st st1 h hd
    simp only [parseLocsWith, Option.some.injEq, Prod.mk.injEq] at h
    rw [← h.1]; exact hd
  | cons locOpt rest ih =>
    intro st st1 h hd
    simp only [parseLocsWith] at h
    by_cases hloc : locOpt.getD ".//" = ""
    · rw [if_pos hloc] at h
      exact ih st st1 h hd
    · rw [if_neg hloc] at h
      cases hcall : f (pyStrip (locOpt.getD ".//")) st with
      | none => rw [hcall] at h; cases h
      | some p =>
        obtain ⟨st2, e2⟩ := p
        rw [hcall] at h
        cases e2 with
        | some e3 =>
          simp only [Option.some.injEq, Prod.mk.injEq] at h
          exact absurd h.2 (by simp)
        | none =>
          exact ih st2 st1 h (hf _ _ _ hcall hd)

theorem domTrace_insert (G : SitemapGraph) (url : String) (st : WalkState)
    (hd : DomTrace G st) (hmem : url ∈ G.dom) :
    DomTrace G ⟨insert url st.seen, st.emit, st.fetched ++ [url]⟩ := by
  intro u hu
  simp only [List.mem_append, List.mem_singleton] at hu
  rcases hu with hu | hu
  · exact hd u hu
  · rw [hu]; exact hmem

theorem parseStep_dom (G : SitemapGraph)
    (rec : String → WalkState → Option (WalkState × Option PyErr))
    (hrec : ∀ u st st1, rec u st = some (st1, none) → DomTrace G st → DomTrace G st1) :
    ∀ (url : String) (st st1 : WalkState),
      parseStep G rec url st = some (st1, none) → DomTrace G st → DomTrace G st1 := by
  intro url st st1 h hd
  simp only [parseStep] at h
  by_cases h1 : url ∈ st.seen
  · rw [if_pos h1] at h
    simp only [Option.some.injEq, Prod.mk.injEq] at h
    rw [← h.1]; exact hd
  · rw [if_neg h1] at h
    by_cases h2 : url ∈ G.dom
    · rw [if_pos h2] at h
      have hd1 := domTrace_insert G url st hd h2
      by_cases h3 : localTag (G.doc url).rootTag = "sitemapindex"
      · rw [if_pos h3] at h
        exact parseLocsWith_dom G rec hrec _ _ _ h hd1
      · rw [if_neg h3] at h
        by_cases h4 : localTag (G.doc url).rootTag = "urlset"
        · rw [if_pos h4] at h
          simp only [Option.some.injEq, Prod.mk.injEq] at h
          rw [← h.1, urlsetPass_eq]
          exact hd1
        · rw [if_neg h4] at h
          simp only [Option.some.injEq, Prod.mk.injEq] at h
          exact absurd h.2 (by simp)
    · rw [if_neg h2] at h
      simp only [Option.some.injEq, Prod.mk.injEq] at h
      exact absurd h.2 (by simp)

theorem parse_dom (G : SitemapGraph) :
    ∀ (fuel : Nat) (url : String) (st st1 : WalkState),
      parse_sitemap G fuel url st = some (st1, none) → DomTrace G st → DomTrace G st1 := by
  intro fuel
  induction fuel with
  | zero => intro url st st1 h; cases h
  | succ n ih =>
    intro url st st1 h
    simp only [parse_sitemap] at h
    exact parseStep_dom G _ (fun u s s1 hc => ih u s s1 hc) url st st1 h

theorem parseLocsWith_total (G : SitemapGraph) (n : Nat)
    (f : String → WalkState → Option (WalkState × Option PyErr))
    (hmono : ∀ u st st1 e, f u st = some (st1, e) → st.seen ⊆ st1.seen)
    (htot : ∀ u st, (G.dom \ st.seen).card < n → f u st ≠ none) :
    ∀ (locs : List (Option String)) (st : WalkState),
      (G.dom \ st.seen).card < n → parseLocsWith f locs st ≠ none := by
  intro locs
  induction locs with
  | nil => intro st hc h; cases h
  | cons locOpt rest ih =>
    intro st hc h
    simp only [parseLocsWith] at h
    by_cases hloc : locOpt.getD ".//" = ""
    · rw [if_pos hloc] at h
      exact ih st hc h
    · rw [if_neg hloc] at h
      cases hcall : f (pyStrip (locOpt.getD ".//")) st with
      | none => exact htot _ _ hc hcall
      | some p =>
        obtain ⟨st2, e2⟩ := p
        rw [hcall] at h
        cases e2 with
        | some e3 => cases h
        | none =>
          have hsub := hmono _ _ _ _ hcall
          have hle : (G.dom \ st2.seen).card ≤ (G.dom \ st.seen).card :=
            Finset.card_le_card (Finset.sdiff_subset_sdiff (Finset.Subset.refl _) hsub)
          exact ih st2 (lt_of_le_of_lt hle hc) h

theorem parseStep_total (G : SitemapGraph) (n : Nat)
    (rec : String → WalkState → Option (WalkState × Option PyErr))
    (hmono : ∀ u st st1 e, rec u st = some (st1, e) → st.seen ⊆ st1.seen)
    (htot : ∀ u st, (G.dom \ st.seen).card < n → rec u st ≠ none) :
    ∀ (url : String) (st : WalkState),
      (G.dom \ st.seen).card < n + 1 → parseStep G rec url st ≠ none := by
  intro url st hc h
  simp only [parseStep] at h
  by_cases h1 : url ∈ st.seen
  · rw [if_pos h1] at h; cases h
  · rw [if_neg h1] at h
    by_cases h2 : url ∈ G.dom
    · rw [if_pos h2] at h
      by_cases h3 : localTag (G.doc url).rootTag = "sitemapindex"
      · rw [if_pos h3] at h
        have hurl : url ∈ G.dom \ st.seen := Finset.mem_sdiff.mpr ⟨h2, h1⟩
        have hpos : 0 < (G.dom \ st.seen).card := Finset.card_pos.mpr ⟨url, hurl⟩
        have herase : G.dom \ insert url st.seen = (G.dom \ st.seen).erase url := by
          ext x
          simp only [Finset.mem_sdiff, Finset.mem_insert, Finset.mem_erase]
          tauto
        have hlt : (G.dom \ (insert url st.seen : Finset String)).card < n := by
          rw [herase, Finset.card_erase_of_mem hurl]
          omega
        exact parseLocsWith_total G n rec hmono htot _ _ hlt h
      · rw [if_neg h3] at h
        by_cases h4 : localTag (G.doc url).rootTag = "urlset"
        · rw [if_pos h4] at h; cases h
        · rw [if_neg h4] at h; cases h
    · rw [if_neg h2] at h; cases h

theorem parse_total (G : SitemapGraph) :
    ∀ (fuel : Nat) (url : String) (st : WalkState),
      (G.dom \ st.seen).card < fuel → parse_sitemap G fuel url st ≠ none := by
  intro fuel
  induction fuel with
  | zero => intro url st hc; exact absurd hc (Nat.not_lt_zero _)
  | succ n ih =>
    intro url st hc
    simp only [parse_sitemap]
    exact parseStep_total G n _
      (fun u s s1 e hcall => parse_seen G n u s s1 e hcall)
      (fun u s hlt => ih u s hlt) url st hc

/-- The traversal started by `collect_urls` never exhausts its fuel: the
fuel bound is only an embedding artifact. -/
theorem collect_urls_total (G : SitemapGraph) (root : String) :
    collect_urls G root ≠ none := by
  intro h
  unfold collect_urls at h
  cases hp : parse_sitemap G (G.dom.card + 1) root ⟨∅, ∅, []⟩ with
  | none =>
    refine parse_total G (G.dom.card + 1) root ⟨∅, ∅, []⟩ ?_ hp
    simp
  | some p =>
    obtain ⟨st, e⟩ := p
    rw [hp] at h
    cases e <;> cases h

theorem toNat_ofNat_valid (m : Nat) (h1 : 97 ≤ m) (h2 : m ≤ 122) :
    (Char.ofNat m).toNat = m := by
  have hv : m.isValidChar := Or.inl (by omega)
  simp only [Char.ofNat, hv, dif_pos]
  simp [Char.ofNatAux, Char.toNat, UInt32.toNat, UInt32.ofNatTruncate, BitVec.toNat_ofNat]

theorem toLower_eq_slash_iff (c : Char) : Char.toLower c = '/' ↔ c = '/' := by
  constructor
  · intro h
    by_cases hc : c.toNat ≥ 65 ∧ c.toNat ≤ 90
    · exfalso
      simp only [Char.toLower] at h
      rw [if_pos hc] at h
      have h2 := congrArg Char.toNat h
      rw [toNat_ofNat_valid (c.toNat + 32) (by omega) (by omega)] at h2
      have h47 : ('/').toNat = 47 := by decide
      rw [h47] at h2
      omega
    · simp only [Char.toLower] at h
      rwa [if_neg hc] at h
  · intro h
    subst h
    decide

theorem dropWhile_map_congr (f : Char → Char) (p : Char → Bool)
    (hp : ∀ c, p (f c) = p c) :
    ∀ l : List Char, (l.map f).dropWhile p = (l.dropWhile p).map f := by
  intro l
  induction l with
  | nil => rfl
  | cons c rest ih =>
    cases hpc : p c with
    | true =>
      have : p (f c) = true := by rw [hp c, hpc]
      simp [List.dropWhile_cons, hpc, this, ih]
    | false =>
      have : p (f c) = false := by rw [hp c, hpc]
      simp [List.dropWhile_cons, hpc, this]

theorem rstripSlash_pyLower_comm (u : String) :
    rstripSlash (pyLower u) = pyLower (rstripSlash u) := by
  unfold rstripSlash pyLower
  congr 1
  rw [← List.map_reverse]
  rw [dropWhile_map_congr Char.toLower (fun c => c = '/')
      (fun c => decide_eq_decide.mpr (toLower_eq_slash_iff c))]
  rw [← List.map_reverse]

theorem collect_urls_ok_empty (G : SitemapGraph) (root : String) (s : Finset String)
    (h : collect_urls G root = some (RunResult.ok s)) : s = ∅ := by
  unfold collect_urls at h
  cases hp : parse_sitemap G (G.dom.card + 1) root ⟨∅, ∅, []⟩ with
  | none => rw [hp] at h; cases h
  | some p =>
    obtain ⟨st, e⟩ := p
    rw [hp] at h
    cases e with
    | some e1 => simp at h
    | none =>
      simp only [Option.some.injEq, RunResult.ok.injEq] at h
      have hemit := parse_emit G (G.dom.card + 1) root ⟨∅, ∅, []⟩ st none hp
      rw [← h, hemit]

theorem collect_urls_root_missing (G : SitemapGraph) (root : String)
    (h : root ∉ G.dom) :
    collect_urls G root = some (RunResult.err (PyErr.fetchError root)) := by
  have hp : parse_sitemap G (G.dom.card + 1) root ⟨∅, ∅, []⟩
      = some (⟨{root}, ∅, [root]⟩, some (PyErr.fetchError root)) := by
    simp only [parse_sitemap, parseStep]
    rw [if_neg (Finset.not_mem_empty root), if_neg h]
    rfl
  unfold collect_urls
  rw [hp]

theorem parse_unsupported_tag (G : SitemapGraph) (fuel : Nat) (url : String)
    (st : WalkState)
    (h1 : url ∉ st.seen) (h2 : url ∈ G.dom)
    (h3 : localTag (G.doc url).rootTag ≠ "sitemapindex")
    (h4 : localTag (G.doc url).rootTag ≠ "urlset") :
    parse_sitemap G (fuel + 1) url st =
      some (⟨insert url st.seen, st.emit, st.fetched ++ [url]⟩,
            some (PyErr.valueError (G.doc url).rootTag)) := by
  simp only [parse_sitemap, parseStep]
  rw [if_neg h1, if_pos h2, if_neg h3, if_neg h4]

set_option maxRecDepth 40000 in
/-- C1: evaluation of the code on the claim scenario.  The claim states
that `collect_urls` returns the reachable non-XML locs — here
`{https://a.com/1, https://a.com/3}` — but on the scenario graph the code
returns the empty set (the `urlset` branch never reads any `loc`, because
`findtext("sm:loc")` is called without the namespace map), which differs
from the claimed set. -/
theorem C1_example_run_collects_nothing :
    collect_urls exGraphC1 exRoot = some (RunResult.ok ∅) ∧
    (∅ : Finset String) ≠ {"https://a.com/1", "https://a.com/3"} := by
  constructor
  · decide
  · decide

/-- C2: for every sitemap graph, cyclic ones included, the traversal
terminates (`collect_urls` never exhausts the `dom.card + 1` fuel), the
fetch trace of any completed run has no duplicate URL (the visited-set is
consulted before each fetch), on exception-free runs at most
`G.dom.card` fetches happen in total, and the self-referencing
`sitemapindex` root is visited exactly once, yielding an empty set
without hanging. -/
theorem C2_cycles_terminate_visit_once :
    (∀ (G : SitemapGraph) (root : String), collect_urls G root ≠ none) ∧
    (∀ (G : SitemapGraph) (root : String) (st : WalkState) (e : Option PyErr),
        parse_sitemap G (G.dom.card + 1) root ⟨∅, ∅, []⟩ = some (st, e) →
        st.fetched.Nodup ∧ (e = none → st.fetched.length ≤ G.dom.card)) ∧
    (parse_sitemap selfLoopGraph (selfLoopGraph.dom.card + 1) exRoot ⟨∅, ∅, []⟩
        = some (⟨{exRoot}, ∅, [exRoot]⟩, (none : Option PyErr)) ∧
     collect_urls selfLoopGraph exRoot = some (RunResult.ok ∅)) := by
  refine ⟨collect_urls_total, ?_, by decide, by decide⟩
  intro G root st e hp
  have hg := parse_good G (G.dom.card + 1) root ⟨∅, ∅, []⟩ st e hp
    ⟨List.nodup_nil, fun u hu => absurd hu (List.not_mem_nil u)⟩
  refine ⟨hg.1, ?_⟩
  intro he
  subst he
  have hd := parse_dom G (G.dom.card + 1) root ⟨∅, ∅, []⟩ st hp
    (fun u hu => absurd hu (List.not_mem_nil u))
  calc st.fetched.length = st.fetched.toFinset.card :=
        (List.toFinset_card_of_nodup hg.1).symm
    _ ≤ G.dom.card :=
        Finset.card_le_card (fun u hu => hd u (List.mem_toFinset.mp hu))

/-- Witness for C2: the hypotheses of the second conjunct are satisfied
by the concrete self-loop run, whose trace `[exRoot]` is duplicate-free
and within the bound. -/
theorem C2_cycles_terminate_visit_once_witness :
    parse_sitemap selfLoopGraph (selfLoopGraph.dom.card + 1) exRoot ⟨∅, ∅, []⟩
        = some (⟨{exRoot}, ∅, [exRoot]⟩, (none : Option PyErr)) ∧
    ([exRoot].Nodup ∧
      ((none : Option PyErr) = none → [exRoot].length ≤ selfLoopGraph.dom.card)) := by
  have hp : parse_sitemap selfLoopGraph (selfLoopGraph.dom.card + 1) exRoot ⟨∅, ∅, []⟩
      = some (⟨{exRoot}, ∅, [exRoot]⟩, (none : Option PyErr)) := by decide
  exact ⟨hp, C2_cycles_terminate_visit_once.2.1 selfLoopGraph exRoot
    ⟨{exRoot}, ∅, [exRoot]⟩ none hp⟩

/-- C3: evaluation of the code on a `sitemapindex` whose single `sitemap`
entry has no `loc` child.  The claim says the entry is silently skipped
with no fetch and no error; the code instead takes `findtext`'s default
`".//"` as the loc, recursively fetches `".//"` (visible in the fetch
trace), and the whole traversal aborts with that fetch failure. -/
theorem C3_missing_loc_fetches_default :
    collect_urls missingLocGraph exRoot
        = some (RunResult.err (PyErr.fetchError ".//")) ∧
    parse_sitemap missingLocGraph (missingLocGraph.dom.card + 1) exRoot ⟨∅, ∅, []⟩
        = some (⟨{".//", exRoot}, ∅, [exRoot, ".//"]⟩,
                some (PyErr.fetchError ".//")) := by
  constructor
  · decide
  · decide

/-- C4: `is_xml_link` returns true exactly when the URL,
case-insensitively and with trailing `/` separators ignored, ends in
`.xml`; the four example classifications of the spec hold. -/
theorem C4_classification :
    (∀ url : String, is_xml_link url = isXmlRef_spec url) ∧
    is_xml_link "https://x.com/sitemap.xml" = true ∧
    is_xml_link "https://x.com/SITEMAP.XML/" = true ∧
    is_xml_link "https://x.com/page" = false ∧
    is_xml_link "https://x.com/a.xml.html" = false := by
  refine ⟨?_, by decide, by decide, by decide, by decide⟩
  intro url
  unfold is_xml_link isXmlRef_spec
  rw [rstripSlash_pyLower_comm]

/-- C5: the export consists of the header row `url` followed by exactly
one row per element of the set, in ascending code-point order; a field
containing the delimiter, a quote character or a line break is emitted
quoted with doubled inner quotes; and the output is a function of the set
alone — two lists with equal element sets export byte-identically. -/
theorem C5_deterministic_export :
    (∀ urls : Finset String,
        build_csv urls = csvRow "url" ++ String.join ((urls.sort (· ≤ ·)).map csvRow) ∧
        List.Sorted (· < ·) (urls.sort (· ≤ ·)) ∧
        ∀ u : String, u ∈ urls.sort (· ≤ ·) ↔ u ∈ urls) ∧
    csvRow "url" = "url" ++ "\r\n" ∧
    (∀ f : String, f.data.any isCsvSpecial = true →
        quoteField f = "\"" ++ escapeQuotes f ++ "\"") ∧
    (∀ l1 l2 : List String, l1.toFinset = l2.toFinset →
        build_csv_list l1 = build_csv_list l2) := by
  refine ⟨?_, by decide, ?_, ?_⟩
  · intro urls
    exact ⟨rfl, Finset.sort_sorted_lt urls, fun u => Finset.mem_sort (α := String) (· ≤ ·)⟩
  · intro f hf
    unfold quoteField
    rw [if_pos hf]
  · intro l1 l2 h
    unfold build_csv_list
    rw [h]

/-- Witness for C5: a field containing the delimiter is quoted, and two
insertion orders of the same set export identically. -/
theorem C5_deterministic_export_witness :
    ("a,b".data.any isCsvSpecial = true ∧
      quoteField "a,b" = "\"" ++ escapeQuotes "a,b" ++ "\"") ∧
    ((["b", "a"] : List String).toFinset = (["a", "b", "a"] : List String).toFinset ∧
      build_csv_list ["b", "a"] = build_csv_list ["a", "b", "a"]) := by
  refine ⟨⟨by decide, C5_deterministic_export.2.2.1 "a,b" (by decide)⟩,
          ⟨by decide, C5_deterministic_export.2.2.2 ["b", "a"] ["a", "b", "a"] (by decide)⟩⟩

/-- C6: the claim says that with the strip-scheme-and-host option enabled
the traversal runs and the collected URLs are stripped before export.  In
the code the call passes the keyword `strip_domain` to a `collect_urls`
that has no such parameter, so every submission with a nonempty URL
raises `TypeError` inside the handler and renders the inline error box:
the traversal never runs and nothing is ever stripped. -/
theorem C6_strip_option_never_applied :
    pyCallKwargsOk collect_urls_params streamlit_call_kwargs = false ∧
    ∀ (G : SitemapGraph) (sitemap_url : String) (strip : Bool),
      pyStrip sitemap_url ≠ "" →
      on_submit G sitemap_url strip =
        FormOutcome.errorBox
          ("Failed to collect URLs: collect_urls() got an unexpected keyword argument "
            ++ "strip_domain") := by
  refine ⟨by decide, ?_⟩
  intro G u strip h
  have hk : ¬ (pyCallKwargsOk collect_urls_params streamlit_call_kwargs = true) := by decide
  simp only [on_submit]
  rw [if_neg h, if_neg hk]

/-- Witness for C6: a concrete submission with a nonempty URL. -/
theorem C6_strip_option_never_applied_witness :
    pyStrip "https://a.com/sitemap.xml" ≠ "" ∧
    on_submit selfLoopGraph "https://a.com/sitemap.xml" true =
      FormOutcome.errorBox
        ("Failed to collect URLs: collect_urls() got an unexpected keyword argument "
          ++ "strip_domain") := by
  refine ⟨by decide, ?_⟩
  exact C6_strip_option_never_applied.2 selfLoopGraph "https://a.com/sitemap.xml" true
    (by decide)

/-- C7 counterexample: a run in which the traversal succeeds but opening
or writing the output file fails.  The claim says every propagated error,
including a write failure, is caught at the entry point; in the code
`write_csv` runs outside the `try`, so the failure escapes as an
unhandled exception. -/
theorem C7_counterexample_write_failure_crashes :
    handledGracefully (main_run emptyIndexGraph exRoot "out.csv" false).1 = false := by
  decide

/-- C7 (amended): every error propagated out of the traversal itself is
caught by the CLI entry point, which reports the single message
`Failed to parse sitemap: ...`, writes no file and exits nonzero without
an unhandled crash; a failure of the output write is not covered. -/
theorem C7_traversal_errors_caught :
    ∀ (G : SitemapGraph) (root out : String) (w : Bool) (e : PyErr),
      collect_urls G root = some (RunResult.err e) →
      main_run G root out w =
        (CliOutcome.sitemapFailure ("Failed to parse sitemap: " ++ errMessage e), false) ∧
      handledGracefully (main_run G root out w).1 = true ∧
      exitCode (main_run G root out w).1 = 1 := by
  intro G root out w e h
  unfold main_run
  rw [h]
  exact ⟨rfl, rfl, rfl⟩

/-- Witness for C7 (amended): concrete run whose root fetch fails. -/
theorem C7_traversal_errors_caught_witness :
    collect_urls noFetchGraph exRoot = some (RunResult.err (PyErr.fetchError exRoot)) ∧
    (main_run noFetchGraph exRoot "out.csv" true =
        (CliOutcome.sitemapFailure
          ("Failed to parse sitemap: " ++ errMessage (PyErr.fetchError exRoot)), false) ∧
      handledGracefully (main_run noFetchGraph exRoot "out.csv" true).1 = true ∧
      exitCode (main_run noFetchGraph exRoot "out.csv" true).1 = 1) := by
  have h : collect_urls noFetchGraph exRoot
      = some (RunResult.err (PyErr.fetchError exRoot)) := by decide
  exact ⟨h, C7_traversal_errors_caught noFetchGraph exRoot "out.csv" true
    (PyErr.fetchError exRoot) h⟩

/-- C8: when the root fetch fails the CLI writes no file, prints
`Failed to parse sitemap: <message>` to standard error and exits 1; when
the traversal and the write succeed it writes the file and prints
`Wrote <N> unique URLs to <path>` with exit code 0. -/
theorem C8_cli_failure_and_success :
    (∀ (G : SitemapGraph) (root out : String) (w : Bool),
        root ∉ G.dom →
        main_run G root out w =
          (CliOutcome.sitemapFailure
            ("Failed to parse sitemap: " ++ errMessage (PyErr.fetchError root)), false) ∧
        exitCode (main_run G root out w).1 = 1) ∧
    (∀ (G : SitemapGraph) (root out : String) (s : Finset String),
        collect_urls G root = some (RunResult.ok s) →
        main_run G root out true =
          (CliOutcome.ok ("Wrote " ++ toString s.card ++ " unique URLs to " ++ out), true) ∧
        exitCode (main_run G root out true).1 = 0) := by
  constructor
  · intro G root out w h
    have hc := collect_urls_root_missing G root h
    unfold main_run
    rw [hc]
    exact ⟨rfl, rfl⟩
  · intro G root out s h
    unfold main_run
    rw [h]
    exact ⟨rfl, rfl⟩

/-- Witness for C8: a root whose fetch fails (every fetch fails in
`noFetchGraph`) and a successful empty-index run. -/
theorem C8_cli_failure_and_success_witness :
    (exRoot ∉ noFetchGraph.dom ∧
      (main_run noFetchGraph exRoot "out.csv" true =
          (CliOutcome.sitemapFailure
            ("Failed to parse sitemap: " ++ errMessage (PyErr.fetchError exRoot)), false) ∧
        exitCode (main_run noFetchGraph exRoot "out.csv" true).1 = 1)) ∧
    (collect_urls emptyIndexGraph exRoot = some (RunResult.ok ∅) ∧
      (main_run emptyIndexGraph exRoot "out.csv" true =
          (CliOutcome.ok
            ("Wrote " ++ toString (∅ : Finset String).card ++ " unique URLs to "
              ++ "out.csv"), true) ∧
        exitCode (main_run emptyIndexGraph exRoot "out.csv" true).1 = 0)) := by
  have h1 : exRoot ∉ noFetchGraph.dom := by decide
  have h2 : collect_urls emptyIndexGraph exRoot = some (RunResult.ok ∅) := by decide
  exact ⟨⟨h1, C8_cli_failure_and_success.1 noFetchGraph exRoot "out.csv" true h1⟩,
         ⟨h2, C8_cli_failure_and_success.2 emptyIndexGraph exRoot "out.csv" ∅ h2⟩⟩

/-- C9: a fetched document whose root element's namespace-stripped tag is
neither `sitemapindex` nor `urlset` makes the walker raise `ValueError`
carrying the full offending tag; at the root this aborts the whole
traversal with that error and no collected result; the rendered message
is `Unsupported sitemap root tag: <tag>`. -/
theorem C9_unsupported_root_tag :
    (∀ (G : SitemapGraph) (fuel : Nat) (url : String) (st : WalkState),
        url ∉ st.seen → url ∈ G.dom →
        localTag (G.doc url).rootTag ≠ "sitemapindex" →
        localTag (G.doc url).rootTag ≠ "urlset" →
        parse_sitemap G (fuel + 1) url st =
          some (⟨insert url st.seen, st.emit, st.fetched ++ [url]⟩,
                some (PyErr.valueError (G.doc url).rootTag))) ∧
    (∀ (G : SitemapGraph) (root : String),
        root ∈ G.dom →
        localTag (G.doc root).rootTag ≠ "sitemapindex" →
        localTag (G.doc root).rootTag ≠ "urlset" →
        collect_urls G root =
          some (RunResult.err (PyErr.valueError (G.doc root).rootTag))) ∧
    (∀ tag : String,
        errMessage (PyErr.valueError tag) = "Unsupported sitemap root tag: " ++ tag) := by
  refine ⟨fun G fuel url st h1 h2 h3 h4 => parse_unsupported_tag G fuel url st h1 h2 h3 h4,
          ?_, fun tag => rfl⟩
  intro G root h2 h3 h4
  have hp := parse_unsupported_tag G G.dom.card root ⟨∅, ∅, []⟩
    (Finset.not_mem_empty root) h2 h3 h4
  unfold collect_urls
  rw [hp]

/-- Witness for C9: a root document with tag `...}rss`. -/
theorem C9_unsupported_root_tag_witness :
    (exRoot ∈ rssGraph.dom ∧
      localTag (rssGraph.doc exRoot).rootTag ≠ "sitemapindex" ∧
      localTag (rssGraph.doc exRoot).rootTag ≠ "urlset") ∧
    collect_urls rssGraph exRoot =
      some (RunResult.err (PyErr.valueError (rssGraph.doc exRoot).rootTag)) := by
  have h2 : exRoot ∈ rssGraph.dom := by decide
  have h3 : localTag (rssGraph.doc exRoot).rootTag ≠ "sitemapindex" := by decide
  have h4 : localTag (rssGraph.doc exRoot).rootTag ≠ "urlset" := by decide
  exact ⟨⟨h2, h3, h4⟩, C9_unsupported_root_tag.2.1 rssGraph exRoot h2 h3 h4⟩

/-- C10: every element of a normally returned collected set is a content
URL — `is_xml_link` is false on it and it equals its own trimmed form —
for cyclic graphs as well as acyclic ones.  (It holds because the `emit`
set provably never grows: the `urlset` branch cannot reach `emit.add`,
see C1.) -/
theorem C10_collected_invariant :
    ∀ (G : SitemapGraph) (root : String) (s : Finset String),
      collect_urls G root = some (RunResult.ok s) →
      ∀ u ∈ s, is_xml_link u = false ∧ pyStrip u = u := by
  intro G root s h u hu
  rw [collect_urls_ok_empty G root s h] at hu
  exact absurd hu (Finset.not_mem_empty u)

/-- Witness for C10: a successful run returning the (empty) set. -/
theorem C10_collected_invariant_witness :
    collect_urls emptyIndexGraph exRoot = some (RunResult.ok ∅) ∧
    ∀ u ∈ (∅ : Finset String), is_xml_link u = false ∧ pyStrip u = u := by
  have h : collect_urls emptyIndexGraph exRoot = some (RunResult.ok ∅) := by decide
  exact ⟨h, C10_collected_invariant emptyIndexGraph exRoot ∅ h⟩
